import Mathlib

/-!
Shallow embedding of `src/main.py` of the repository
(an agent scaffold with token/cost budget tracking and structured task output),
together with theorems settling the specification claims about it.

Modelling conventions:
* Python `int` is `Int`; Python `float` arithmetic is modelled exactly over `Rat`
  (the code performs only `+`, `*`, `/` by constants, and `round(-, 4)`).
* Python dictionaries returned by the code are modelled as Lean structures with
  the same keys; `json.dumps`/`json.loads` round-trips are the identity on that
  structured value, so `to_json` returns the structured value directly.
* A `try/except` body whose task may raise is modelled with `Except String`:
  `Except.error msg` stands for a raised exception with message `msg`.
* The budget callback is an external side-effecting function; it is modelled by
  its presence flag on the agent plus an invocation counter returned by the
  operations that may call it.
-/

namespace MainPy

/-- Round-half-to-even of a rational to an integer, the rounding Python's
`round` uses on the exact value; used to model `round(x, 4)`. -/
def roundHalfEven (q : Rat) : Int :=
  let f := q.floor
  let r := q - (f : Rat)
  if r < 1/2 then f
  else if 1/2 < r then f + 1
  else if f % 2 = 0 then f else f + 1

/-- Models Python `round(x, 4)` on the exact rational value. -/
def round4 (q : Rat) : Rat := (roundHalfEven (q * 10000) : Rat) / 10000

/-- The dictionary shape returned by `UsageTracker.log_usage` and
`UsageTracker.to_json` in `src/main.py` (keys `total_tokens`, `prompt_tokens`,
`completion_tokens`, `estimated_cost`, `calls`). -/
structure UsageSnapshot where
  total_tokens : Int
  prompt_tokens : Int
  completion_tokens : Int
  estimated_cost : Rat
  calls : Int
deriving Repr, DecidableEq

/-- The `UsageTracker` dataclass of `src/main.py` (lines 36-53), with its
field defaults. -/
structure UsageTracker where
  total_tokens : Int := 0
  prompt_tokens : Int := 0
  completion_tokens : Int := 0
  estimated_cost : Rat := 0
  calls : Int := 0
deriving Repr, DecidableEq

/-- A freshly constructed `UsageTracker()` (all dataclass defaults). -/
def UsageTracker.init : UsageTracker := {}

/-- `UsageTracker.log_usage` (src/main.py lines 55-73): mutates the counters
and returns the usage dictionary.  Modelled as the updated tracker paired with
the returned snapshot.  Mirrors the source statement by statement:
`prompt_tokens += p`, `completion_tokens += c`,
`total_tokens = prompt_tokens + completion_tokens`,
`estimated_cost += (total_tokens / 1000) * cost_per_1k`, `calls += 1`;
the returned dict carries `round(estimated_cost, 4)`. -/
def UsageTracker.log_usage (t : UsageTracker) (prompt_tokens completion_tokens : Int)
    (cost_per_1k : Rat := 2/1000) : UsageTracker × UsageSnapshot :=
  let pt := t.prompt_tokens + prompt_tokens
  let ct := t.completion_tokens + completion_tokens
  let tt := pt + ct
  let ec := t.estimated_cost + ((tt : Rat) / 1000) * cost_per_1k
  let cl := t.calls + 1
  (⟨tt, pt, ct, ec, cl⟩, ⟨tt, pt, ct, round4 ec, cl⟩)

/-- `UsageTracker.is_budget_exceeded` (src/main.py lines 75-81):
`estimated_cost >= budget_limit`. -/
def UsageTracker.is_budget_exceeded (t : UsageTracker) (budget_limit : Rat) : Bool :=
  decide (budget_limit ≤ t.estimated_cost)

/-- `UsageTracker.to_json` (src/main.py lines 83-91), as the parsed structured
value (`json.loads(t.to_json())`). -/
def UsageTracker.to_json (t : UsageTracker) : UsageSnapshot :=
  ⟨t.total_tokens, t.prompt_tokens, t.completion_tokens, round4 t.estimated_cost, t.calls⟩

/-- Modelled from the spec: the near-duplicate superseded module of this
repository (not present under `src/`) lets the budget limit be unset/`None`;
its budget check returns false for an unset limit and otherwise behaves as
`UsageTracker.is_budget_exceeded`.  (`src/main.py`'s `is_budget_exceeded`
only accepts a numeric limit.) -/
def UsageTracker.is_budget_exceeded_opt (t : UsageTracker) : Option Rat → Bool
  | none => false
  | some limit => t.is_budget_exceeded limit

/-- The `TaskConfig` dataclass of `src/main.py` (lines 94-109). -/
structure TaskConfig where
  max_tokens : Int := 1000
  temperature : Rat := 7/10
  budget_limit : Rat := 1
  enable_tracking : Bool := true
deriving Repr, DecidableEq

/-- The keyword arguments passed to `Agent.execute_task`.  The executor itself
reads only `prompt_tokens` and `completion_tokens` (with `kwargs.get` defaults
100 and 50); everything else is opaque to it and consumed by the task, so it is
kept as a type parameter `α`. -/
structure Kwargs (α : Type) where
  prompt_tokens : Option Int := none
  completion_tokens : Option Int := none
  extra : α

/-- The abstract `Task` contract of `src/main.py` (lines 112-131): a
`validate_input` predicate over the keyword arguments and an `execute` body
that either returns a structured value of type `ρ` or raises
(`Except.error` with the exception message). -/
structure Task (α ρ : Type) where
  validate_input : Kwargs α → Bool
  execute : Kwargs α → Except String ρ

/-- The dictionary returned by `Agent.execute_task` (src/main.py lines
180-230): `status` is `"success"` or `"error"`; `message` is present exactly
on the error shapes, `result` exactly on success, `within_budget` on success
and on the budget-halt shape. -/
structure ExecuteTaskResult (ρ : Type) where
  status : String
  message : Option String
  result : Option ρ
  usage : UsageSnapshot
  within_budget : Option Bool

/-- The `Agent` class state (src/main.py lines 134-157): a `TaskConfig`, a
`UsageTracker`, the per-1k-token cost, and whether a budget callback is
registered (`self.budget_callback is not None`). -/
structure Agent where
  config : TaskConfig
  usage_tracker : UsageTracker
  cost_per_1k : Rat
  has_budget_callback : Bool

/-- `Agent.__init__` (src/main.py lines 142-157): builds the config from
`max_tokens` and `budget_limit`, a fresh tracker, and no callback. -/
def Agent.init (max_tokens : Int := 1000) (budget_limit : Rat := 1)
    (cost_per_1k : Rat := 2/1000) : Agent :=
  { config := { max_tokens := max_tokens, budget_limit := budget_limit }
    usage_tracker := UsageTracker.init
    cost_per_1k := cost_per_1k
    has_budget_callback := false }

/-- `Agent.set_budget_callback` (src/main.py lines 159-165): registers the
callback (modelled by its presence flag). -/
def Agent.set_budget_callback (a : Agent) : Agent :=
  { a with has_budget_callback := true }

/-- `Agent.check_budget` (src/main.py lines 167-178): if the tracker reports
the budget exceeded, invoke the callback when one is registered and return
`False`; otherwise return `True`.  The second component counts callback
invocations performed by this call. -/
def Agent.check_budget (a : Agent) : Bool × Nat :=
  if a.usage_tracker.is_budget_exceeded a.config.budget_limit then
    (false, if a.has_budget_callback then 1 else 0)
  else
    (true, 0)

/-- The outcome of one `Agent.execute_task` call: the returned dictionary, the
agent state after the call, and how many times the budget callback was
invoked during the call. -/
structure ExecOutcome (ρ : Type) where
  result : ExecuteTaskResult ρ
  agent : Agent
  callback_calls : Nat

/-- `Agent.execute_task` (src/main.py lines 180-230), mirrored branch by
branch: reject invalid input; halt when `check_budget` fails; otherwise run
the task inside try/except, log usage when `track_usage` is set (token counts
from `kwargs.get('prompt_tokens', 100)` / `kwargs.get('completion_tokens',
50)`), and assemble the success dictionary whose `within_budget` field comes
from a second `check_budget` call on the updated tracker. -/
def Agent.execute_task {α ρ : Type} (a : Agent) (task : Task α ρ)
    (track_usage : Bool := true) (kwargs : Kwargs α) : ExecOutcome ρ :=
  if ¬ task.validate_input kwargs then
    { result := ⟨"error", some "Invalid input parameters", none, a.usage_tracker.to_json, none⟩
      agent := a
      callback_calls := 0 }
  else
    let checked := a.check_budget
    if checked.1 = false then
      { result := ⟨"error", some "Budget limit exceeded", none, a.usage_tracker.to_json,
          some false⟩
        agent := a
        callback_calls := checked.2 }
    else
      match task.execute kwargs with
      | Except.error e =>
          { result := ⟨"error", some e, none, a.usage_tracker.to_json, none⟩
            agent := a
            callback_calls := 0 }
      | Except.ok r =>
          let a2 :=
            if track_usage then
              { a with usage_tracker :=
                  (a.usage_tracker.log_usage (kwargs.prompt_tokens.getD 100)
                    (kwargs.completion_tokens.getD 50) a.cost_per_1k).1 }
            else a
          let post := a2.check_budget
          { result := ⟨"success", none, some r, a2.usage_tracker.to_json, some post.1⟩
            agent := a2
            callback_calls := post.2 }

/-- The keyword-argument shape used by `ExampleTask`: an optional `query`
entry. -/
structure ExampleArgs where
  query : Option String := none
deriving Repr, DecidableEq

/-- The structured value returned by `ExampleTask.execute`
(src/main.py lines 268-283). -/
structure ExampleOutput where
  query : String
  response : String
  task_type : String
  timestamp : String
  output_format : String
deriving Repr, DecidableEq

/-- `ExampleTask` (src/main.py lines 257-283): `validate_input` requires a
`query` keyword; `execute` echoes the query back in a structured value and
never raises. -/
def exampleTask : Task ExampleArgs ExampleOutput where
  validate_input kwargs := kwargs.extra.query.isSome
  execute kwargs :=
    let q := kwargs.extra.query.getD ""
    Except.ok ⟨q, "Processed: " ++ q, "example", "2025-10-20T06:19:00Z", "json"⟩

/-- A task that always raises, used to exercise the fault-containment path. -/
def failingTask : Task Unit Unit where
  validate_input _ := true
  execute _ := Except.error "task failed"

/-- Modelled from the spec: the task shape of the superseded batch module
(not under `src/`), whose construction-time self-check is `validate()`. -/
structure QTask where
  valid : Bool
deriving Repr, DecidableEq

/-- The construction-time self-check `validate()` of a batch task. -/
def QTask.validate (t : QTask) : Bool := t.valid

/-- Modelled from the spec: the batch executor of the superseded module with
its queue of registered tasks. -/
structure BatchExecutor where
  tasks : List QTask
deriving Repr, DecidableEq

/-- Modelled from the spec: `addTask(task)` of the batch executor (not under
`src/`): validates the task's own configuration via the task's `validate`
contract before accepting it; fails with `TaskValidationError` (and does not
enqueue) if validation returns false.  The first component is the raised
error (`none` on success); the second is the executor state after the call. -/
def BatchExecutor.addTask (e : BatchExecutor) (t : QTask) :
    Option String × BatchExecutor :=
  if t.validate then
    (none, ⟨e.tasks ++ [t]⟩)
  else
    (some "TaskValidationError", e)

/-- One step of a sequence of `log_usage` calls: apply the call described by
the triple (prompt tokens, completion tokens, cost per 1k) to the tracker. -/
def logStep (t : UsageTracker) (e : Int × Int × Rat) : UsageTracker :=
  (t.log_usage e.1 e.2.1 e.2.2).1

/-- The tracker obtained by running a sequence of `log_usage` calls on a
freshly constructed tracker. -/
def runLog (l : List (Int × Int × Rat)) : UsageTracker :=
  l.foldl logStep UsageTracker.init

/-- The tracker after `n` repetitions of `log_usage(100, 50)` at the default
rate 0.002 per 1000 tokens, starting from a fresh tracker (the spec's example
scenario). -/
def iterLog (n : Nat) : UsageTracker :=
  (fun t => (t.log_usage 100 50 (2/1000)).1)^[n] UsageTracker.init

/-- Keyword arguments carrying nothing beyond the two token counts. -/
def kw0u : Kwargs Unit := ⟨none, none, ()⟩

/-- Keyword arguments for `exampleTask` carrying a `query`. -/
def kwq : Kwargs ExampleArgs := ⟨none, none, ⟨some "q"⟩⟩

/-- A concrete agent as in the spec's example scenario:
`Agent(max_tokens=1000, budget_limit=0.50)` with the default cost rate. -/
def agent0 : Agent := Agent.init 1000 (1/2) (2/1000)

/-- A task whose input validation always fails. -/
def invalidTask : Task Unit Unit where
  validate_input _ := false
  execute _ := Except.ok ()

/-- An agent with a registered callback whose tracker will cross its tiny
budget limit on the first logged usage. -/
def cexAgent : Agent :=
  { config := { budget_limit := 3/10000 }
    usage_tracker := UsageTracker.init
    cost_per_1k := 2/1000
    has_budget_callback := true }

/-- An agent with a registered callback whose accumulated cost already
exceeds its budget limit. -/
def aHigh : Agent :=
  { config := { budget_limit := 1/2 }
    usage_tracker := { estimated_cost := 1 }
    cost_per_1k := 2/1000
    has_budget_callback := true }

/-- The spec-example agent after the 2000 repeated log calls: budget limit
0.50, cost rate 0.002, tracker state `iterLog 2000`. -/
def a8 : Agent :=
  { config := { budget_limit := 1/2 }
    usage_tracker := iterLog 2000
    cost_per_1k := 2/1000
    has_budget_callback := false }

/-- A concrete two-call sequence with non-negative inputs throughout. -/
def l0 : List (Int × Int × Rat) := [(100, 50, 2/1000), (30, 20, 1/100)]

/-! ## Theorems settling the claims -/

/-- Each `log_usage` step recomputes `total_tokens` as the sum of the two
token counters. -/
theorem logStep_total_eq (t : UsageTracker) (e : Int × Int × Rat) :
    (logStep t e).total_tokens =
      (logStep t e).prompt_tokens + (logStep t e).completion_tokens := rfl

/-- The `total_tokens` invariant is preserved by any sequence of `log_usage`
steps. -/
theorem foldl_logStep_total (l : List (Int × Int × Rat)) :
    ∀ t : UsageTracker, t.total_tokens = t.prompt_tokens + t.completion_tokens →
      (l.foldl logStep t).total_tokens =
        (l.foldl logStep t).prompt_tokens + (l.foldl logStep t).completion_tokens := by
  induction l with
  | nil => exact fun t h => h
  | cons e l ih => exact fun t _ => ih (logStep t e) (logStep_total_eq t e)

/-- Running `log_usage` steps with non-negative prompt tokens, completion
tokens and cost rates, from a tracker whose token counters are non-negative,
keeps the token counters non-negative and never decreases the cost. -/
theorem foldl_logStep_mono (l : List (Int × Int × Rat)) :
    ∀ t : UsageTracker,
      (∀ e ∈ l, 0 ≤ e.1 ∧ 0 ≤ e.2.1 ∧ 0 ≤ e.2.2) →
      0 ≤ t.prompt_tokens → 0 ≤ t.completion_tokens →
      0 ≤ (l.foldl logStep t).prompt_tokens ∧
      0 ≤ (l.foldl logStep t).completion_tokens ∧
      t.estimated_cost ≤ (l.foldl logStep t).estimated_cost := by
  induction l with
  | nil => exact fun t _ hp hc => ⟨hp, hc, le_refl _⟩
  | cons e l ih =>
    intro t hl hp hc
    have he : 0 ≤ e.1 ∧ 0 ≤ e.2.1 ∧ 0 ≤ e.2.2 := hl e (List.mem_cons_self e l)
    have hl2 : ∀ x ∈ l, 0 ≤ x.1 ∧ 0 ≤ x.2.1 ∧ 0 ≤ x.2.2 :=
      fun x hx => hl x (List.mem_cons_of_mem e hx)
    have hp2 : 0 ≤ (logStep t e).prompt_tokens := by
      simp only [logStep, UsageTracker.log_usage]
      exact add_nonneg hp he.1
    have hc2 : 0 ≤ (logStep t e).completion_tokens := by
      simp only [logStep, UsageTracker.log_usage]
      exact add_nonneg hc he.2.1
    have hcost : t.estimated_cost ≤ (logStep t e).estimated_cost := by
      have hnn : (0 : Rat) ≤
          ((t.prompt_tokens + e.1 + (t.completion_tokens + e.2.1) : Int) : Rat)
            / 1000 * e.2.2 := by
        apply mul_nonneg _ he.2.2
        apply div_nonneg _ (by norm_num)
        exact_mod_cast add_nonneg (add_nonneg hp he.1) (add_nonneg hc he.2.1)
      simp only [logStep, UsageTracker.log_usage]
      linarith
    obtain ⟨h1, h2, h3⟩ := ih (logStep t e) hl2 hp2 hc2
    exact ⟨h1, h2, le_trans hcost h3⟩

/-- C1: `log_usage` is claimed to add `(increment of total_tokens / 1000) *
cost_per_1k` to `estimated_cost`.  The code instead adds `(cumulative
total_tokens / 1000) * cost_per_1k`: starting from a fresh tracker, two calls
of `log_usage(100, 50, 0.002)` leave `estimated_cost = 0.0009` — the second
call added `0.0006` (re-billing the cumulative 300 tokens) although its
`total_tokens` increment is 150, whose increment cost is `0.0003`. -/
theorem C1_cost_uses_cumulative_total :
    (UsageTracker.init.log_usage 100 50 (2/1000)).1.estimated_cost = 3/10000 ∧
    (UsageTracker.init.log_usage 100 50 (2/1000)).1.total_tokens = 150 ∧
    ((UsageTracker.init.log_usage 100 50 (2/1000)).1.log_usage 100 50
        (2/1000)).1.estimated_cost = 9/10000 ∧
    ((UsageTracker.init.log_usage 100 50 (2/1000)).1.log_usage 100 50
        (2/1000)).1.total_tokens = 300 := by
  norm_num [UsageTracker.log_usage, UsageTracker.init]

/-- C3 counterexample: the claim says a `log_usage` call with a negative
token count raises and leaves every counter unmodified.  The code has no
validation: `log_usage(-5, 0)` on a fresh tracker returns normally and does
modify the counters (`prompt_tokens` becomes `-5`, `calls` becomes `1`). -/
theorem C3_counterexample :
    (UsageTracker.init.log_usage (-5) 0 (2/1000)).1.prompt_tokens = -5 ∧
    (UsageTracker.init.log_usage (-5) 0 (2/1000)).1.calls = 1 := by
  constructor <;> rfl

/-- C3 amended: `log_usage` performs no input validation.  A call in which
`prompt_tokens` or `completion_tokens` is negative does not fail (the code has
no failure path and defines no `InvalidUsageError`); it adds the given
(negative) amounts to the counters and increments `calls` exactly as in the
non-negative case. -/
theorem C3_amended_no_validation (t : UsageTracker) (pt ct : Int) (k : Rat)
    (h : pt < 0 ∨ ct < 0) :
    (t.log_usage pt ct k).1.prompt_tokens = t.prompt_tokens + pt ∧
    (t.log_usage pt ct k).1.completion_tokens = t.completion_tokens + ct ∧
    (t.log_usage pt ct k).1.total_tokens =
      (t.prompt_tokens + pt) + (t.completion_tokens + ct) ∧
    (t.log_usage pt ct k).1.calls = t.calls + 1 :=
  ⟨rfl, rfl, rfl, rfl⟩

/-- C3 amended, witness at the concrete input of the counterexample. -/
theorem C3_amended_witness :
    ((-5 : Int) < 0 ∨ (0 : Int) < 0) ∧
    (UsageTracker.init.log_usage (-5) 0 (2/1000)).1.prompt_tokens =
      UsageTracker.init.prompt_tokens + (-5) :=
  ⟨Or.inl (by decide),
    (C3_amended_no_validation UsageTracker.init (-5) 0 (2/1000)
      (Or.inl (by decide))).1⟩

/-- C4: `is_budget_exceeded` returns true exactly when `estimated_cost ≥
budget_limit` for any numeric limit; and with an unset/`None` limit (present
only in the superseded module, modelled from the spec by
`is_budget_exceeded_opt`) the check is always false, while a set limit
behaves exactly as the numeric check. -/
theorem C4_is_budget_exceeded_spec :
    (∀ (t : UsageTracker) (limit : Rat),
        t.is_budget_exceeded limit = true ↔ limit ≤ t.estimated_cost) ∧
    (∀ t : UsageTracker, t.is_budget_exceeded_opt none = false) ∧
    (∀ (t : UsageTracker) (limit : Rat),
        t.is_budget_exceeded_opt (some limit) = t.is_budget_exceeded limit) := by
  refine ⟨fun t limit => ?_, fun t => rfl, fun t limit => rfl⟩
  simp [UsageTracker.is_budget_exceeded]

/-- C9: registering a batch task whose `validate()` returns false fails with
`TaskValidationError` and does not enqueue it — the executor's queue length
is unchanged.  (`addTask` is modelled from the spec; the batch module is not
under `src/`.) -/
theorem C9_addTask_rejects_invalid (e : BatchExecutor) (t : QTask)
    (h : t.validate = false) :
    e.addTask t = (some "TaskValidationError", e) ∧
    (e.addTask t).2.tasks.length = e.tasks.length := by
  simp [BatchExecutor.addTask, h]

/-- C9, witness: a concrete invalid task against a one-element queue. -/
theorem C9_witness :
    (QTask.mk false).validate = false ∧
    (BatchExecutor.mk [⟨true⟩]).addTask ⟨false⟩ =
      (some "TaskValidationError", BatchExecutor.mk [⟨true⟩]) :=
  ⟨rfl, (C9_addTask_rejects_invalid (BatchExecutor.mk [⟨true⟩]) ⟨false⟩ rfl).1⟩

/-- C5: when the input validates, the budget is not exceeded, and the task's
`execute` raises (modelled by `Except.error msg`), `execute_task` catches the
fault and returns the structured error dictionary carrying the fault's
message; the agent state is untouched and nothing propagates to the caller. -/
theorem C5_task_fault_contained {α ρ : Type} (a : Agent) (task : Task α ρ)
    (track_usage : Bool) (kw : Kwargs α) (msg : String)
    (hval : task.validate_input kw = true)
    (hbud : a.usage_tracker.estimated_cost < a.config.budget_limit)
    (hexec : task.execute kw = Except.error msg) :
    (a.execute_task task track_usage kw).result =
      ⟨"error", some msg, none, a.usage_tracker.to_json, none⟩ ∧
    (a.execute_task task track_usage kw).agent = a := by
  have hb : a.usage_tracker.is_budget_exceeded a.config.budget_limit = false := by
    simp [UsageTracker.is_budget_exceeded]
    exact hbud
  constructor <;> simp [Agent.execute_task, Agent.check_budget, hval, hb, hexec]

/-- C5, witness: the always-raising task under a fresh agent. -/
theorem C5_witness :
    failingTask.validate_input kw0u = true ∧
    agent0.usage_tracker.estimated_cost < agent0.config.budget_limit ∧
    (agent0.execute_task failingTask true kw0u).result =
      ⟨"error", some "task failed", none, agent0.usage_tracker.to_json, none⟩ :=
  ⟨rfl, by norm_num [agent0, Agent.init, UsageTracker.init],
    (C5_task_fault_contained agent0 failingTask true kw0u "task failed" rfl
      (by norm_num [agent0, Agent.init, UsageTracker.init]) rfl).1⟩

/-- C7: when `validate_input` rejects the parameters, `execute_task` returns
the error dictionary `{status: "error", message: "Invalid input parameters",
usage}` with no `within_budget` field, leaves the agent untouched, invokes
the callback zero times (no budget check is performed), and the outcome does
not depend on the task's `execute` at all. -/
theorem C7_invalid_input_short_circuits {α ρ : Type} (a : Agent) (task : Task α ρ)
    (track_usage : Bool) (kw : Kwargs α)
    (hval : task.validate_input kw = false) :
    a.execute_task task track_usage kw =
      ⟨⟨"error", some "Invalid input parameters", none, a.usage_tracker.to_json, none⟩,
        a, 0⟩ ∧
    ∀ g : Kwargs α → Except String ρ,
      a.execute_task ⟨task.validate_input, g⟩ track_usage kw =
        a.execute_task task track_usage kw := by
  constructor
  · simp [Agent.execute_task, hval]
  · intro g
    simp [Agent.execute_task, hval]

/-- C7, witness: a concrete task whose validation always fails. -/
theorem C7_witness :
    invalidTask.validate_input kw0u = false ∧
    agent0.execute_task invalidTask true kw0u =
      ⟨⟨"error", some "Invalid input parameters", none, agent0.usage_tracker.to_json, none⟩,
        agent0, 0⟩ :=
  ⟨rfl, (C7_invalid_input_short_circuits agent0 invalidTask true kw0u rfl).1⟩

/-- C10: every `execute_task` call that returns an error-status result, and
every call made with `track_usage = false`, leaves every field of the agent's
`usage_tracker` unchanged. -/
theorem C10_frame {α ρ : Type} (a : Agent) (task : Task α ρ)
    (track_usage : Bool) (kw : Kwargs α)
    (h : (a.execute_task task track_usage kw).result.status = "error" ∨
      track_usage = false) :
    (a.execute_task task track_usage kw).agent.usage_tracker = a.usage_tracker := by
  by_cases hval : task.validate_input kw = true
  · by_cases hb : (a.check_budget).1 = false
    · simp [Agent.execute_task, hval, hb]
    · cases hex : task.execute kw with
      | error e => simp [Agent.execute_task, hval, hb, hex]
      | ok r =>
        cases htu : track_usage with
        | false => simp [Agent.execute_task, hval, hb, hex]
        | true =>
          rcases h with h | h
          · rw [htu] at h
            simp [Agent.execute_task, hval, hb, hex] at h
          · rw [htu] at h
            exact absurd h (by simp)
  · simp [Agent.execute_task, hval]

/-- C10, witness: the invalid-input error shape leaves the tracker unchanged. -/
theorem C10_witness :
    ((agent0.execute_task invalidTask true kw0u).result.status = "error" ∨
      (true : Bool) = false) ∧
    (agent0.execute_task invalidTask true kw0u).agent.usage_tracker =
      agent0.usage_tracker :=
  ⟨Or.inl rfl, C10_frame agent0 invalidTask true kw0u (Or.inl rfl)⟩

/-- C2 counterexample: the claim says the registered callback is never
invoked during an `execute_task` call whose task executes successfully.  On
`cexAgent` (fresh tracker, budget limit 0.0003, callback registered) the
example task succeeds — the result status is `"success"` — yet the callback
is invoked once, by the second `check_budget` call that computes
`within_budget` after usage logging pushed the cost to the limit. -/
theorem C2_counterexample :
    (cexAgent.execute_task exampleTask true kwq).result.status = "success" ∧
    (cexAgent.execute_task exampleTask true kwq).callback_calls = 1 := by
  norm_num [cexAgent, kwq, Agent.execute_task, Agent.check_budget,
    UsageTracker.is_budget_exceeded, UsageTracker.log_usage, UsageTracker.init,
    UsageTracker.to_json, exampleTask]

/-- C2 amended: with a callback registered and valid input, the callback is
invoked exactly once when `execute_task` halts because the budget is already
exhausted (error result); but it is also invoked — exactly once — at the end
of a successful call whenever the post-execution `check_budget` used to
compute `within_budget` finds the budget exceeded, and zero times otherwise.
So callback invocation is not limited to budget halts. -/
theorem C2_amended_callback_invocations {α ρ : Type} (a : Agent) (task : Task α ρ)
    (track_usage : Bool) (kw : Kwargs α) (r : ρ)
    (hcb : a.has_budget_callback = true)
    (hval : task.validate_input kw = true) :
    (a.config.budget_limit ≤ a.usage_tracker.estimated_cost →
      (a.execute_task task track_usage kw).result.status = "error" ∧
      (a.execute_task task track_usage kw).callback_calls = 1) ∧
    (a.usage_tracker.estimated_cost < a.config.budget_limit →
      task.execute kw = Except.ok r →
      (a.execute_task task track_usage kw).result.status = "success" ∧
      (a.execute_task task track_usage kw).callback_calls =
        (if (a.execute_task task track_usage kw).agent.usage_tracker.is_budget_exceeded
            a.config.budget_limit = true then 1 else 0)) := by
  constructor
  · intro hbud
    have hb : a.usage_tracker.is_budget_exceeded a.config.budget_limit = true := by
      simp [UsageTracker.is_budget_exceeded, hbud]
    constructor <;> simp [Agent.execute_task, Agent.check_budget, hval, hb, hcb]
  · intro hbud hexec
    have hb : a.usage_tracker.is_budget_exceeded a.config.budget_limit = false := by
      simp [UsageTracker.is_budget_exceeded]
      exact hbud
    cases htu : track_usage with
    | false =>
      constructor
      · simp [Agent.execute_task, Agent.check_budget, hval, hb, hexec]
      · by_cases hx : a.usage_tracker.is_budget_exceeded a.config.budget_limit = true
        · exact absurd hx (by simp [hb])
        · simp [Agent.execute_task, Agent.check_budget, hval, hb, hexec, hx]
    | true =>
      constructor
      · simp [Agent.execute_task, Agent.check_budget, hval, hb, hexec]
      · by_cases hx :
          ((a.usage_tracker.log_usage (kw.prompt_tokens.getD 100)
            (kw.completion_tokens.getD 50) a.cost_per_1k).1).is_budget_exceeded
            a.config.budget_limit = true
        · simp [Agent.execute_task, Agent.check_budget, hval, hb, hexec, hx, hcb]
        · simp [Agent.execute_task, Agent.check_budget, hval, hb, hexec, hx, hcb]

/-- C2 amended, witness: the budget-halt case on an agent whose cost already
exceeds its limit. -/
theorem C2_amended_witness :
    aHigh.config.budget_limit ≤ aHigh.usage_tracker.estimated_cost ∧
    ((aHigh.execute_task exampleTask true kwq).result.status = "error" ∧
      (aHigh.execute_task exampleTask true kwq).callback_calls = 1) :=
  ⟨by norm_num [aHigh],
    (C2_amended_callback_invocations aHigh exampleTask true kwq
      ⟨"q", "Processed: q", "example", "2025-10-20T06:19:00Z", "json"⟩ rfl rfl).1
      (by norm_num [aHigh])⟩

/-- C6 counterexample: the claim constrains only the token inputs to be
non-negative, leaving `cost_per_1k` unconstrained.  With non-negative token
inputs throughout — `log_usage(100, 50, 0.002)` then `log_usage(0, 0, -1)` —
`estimated_cost` strictly decreases at the second call, so it is not
monotonically non-decreasing. -/
theorem C6_counterexample :
    ((UsageTracker.init.log_usage 100 50 (2/1000)).1.log_usage 0 0 (-1)).1.estimated_cost <
      (UsageTracker.init.log_usage 100 50 (2/1000)).1.estimated_cost := by
  norm_num [UsageTracker.log_usage, UsageTracker.init]

/-- C6 amended: after every sequence of `log_usage` calls with non-negative
token inputs and non-negative `cost_per_1k` rates, starting from a fresh
tracker, `total_tokens = prompt_tokens + completion_tokens` holds after every
prefix of the sequence, and `estimated_cost` is monotonically non-decreasing
across the sequence. -/
theorem C6_amended_invariants (l : List (Int × Int × Rat))
    (hl : ∀ e ∈ l, 0 ≤ e.1 ∧ 0 ≤ e.2.1 ∧ 0 ≤ e.2.2) :
    (∀ n : Nat, (runLog (l.take n)).total_tokens =
      (runLog (l.take n)).prompt_tokens + (runLog (l.take n)).completion_tokens) ∧
    (∀ m n : Nat, m ≤ n →
      (runLog (l.take m)).estimated_cost ≤ (runLog (l.take n)).estimated_cost) := by
  constructor
  · intro n
    exact foldl_logStep_total (l.take n) UsageTracker.init rfl
  · intro m n hmn
    have hdecomp : l.take n = l.take m ++ (l.drop m).take (n - m) := by
      rw [← List.take_add, Nat.add_sub_cancel' hmn]
    have hbase := foldl_logStep_mono (l.take m) UsageTracker.init
      (fun e he => hl e (List.take_subset m l he)) (le_refl 0) (le_refl 0)
    have hrest := foldl_logStep_mono ((l.drop m).take (n - m))
      ((l.take m).foldl logStep UsageTracker.init)
      (fun e he => hl e (List.drop_subset m l (List.take_subset _ _ he)))
      hbase.1 hbase.2.1
    calc (runLog (l.take m)).estimated_cost
        ≤ (((l.drop m).take (n - m)).foldl logStep
            ((l.take m).foldl logStep UsageTracker.init)).estimated_cost := hrest.2.2
      _ = (runLog (l.take n)).estimated_cost := by
          rw [runLog, hdecomp, List.foldl_append]

/-- C6 amended, witness: a concrete two-call sequence. -/
theorem C6_witness :
    (∀ e ∈ l0, 0 ≤ e.1 ∧ 0 ≤ e.2.1 ∧ 0 ≤ e.2.2) ∧
    (runLog (l0.take 1)).estimated_cost ≤ (runLog (l0.take 2)).estimated_cost :=
  ⟨by norm_num [l0], (C6_amended_invariants l0 (by norm_num [l0])).2 1 2 (by norm_num)⟩

/-- The spec's example scenario in closed form: `n` repetitions of
`log_usage(100, 50)` at rate 0.002 produce `100n` prompt tokens, `50n`
completion tokens, `150n` total tokens, `n` calls, and — because the code
bills the cumulative total on every call — an estimated cost of
`0.0003 · n(n+1)/2`. -/
theorem iterLog_closed (n : Nat) :
    iterLog n = ⟨150 * n, 100 * n, 50 * n, 3 * n * (n + 1) / 20000, n⟩ := by
  induction n with
  | zero =>
    simp [iterLog, UsageTracker.init]
  | succ k ih =>
    have hstep : iterLog (k + 1) =
        ((iterLog k).log_usage 100 50 (2/1000)).1 :=
      Function.iterate_succ_apply' _ k UsageTracker.init
    rw [hstep, ih]
    simp only [UsageTracker.log_usage, UsageTracker.mk.injEq]
    refine ⟨?_, ?_, ?_, ?_, ?_⟩ <;> push_cast <;> ring

/-- When the input validates, the budget is already exceeded, and no callback
is registered, `execute_task` halts with the budget error dictionary before
invoking the task, leaving the agent unchanged. -/
theorem execute_task_halts {α ρ : Type} (a : Agent) (task : Task α ρ)
    (track_usage : Bool) (kw : Kwargs α)
    (hval : task.validate_input kw = true)
    (hb : a.usage_tracker.is_budget_exceeded a.config.budget_limit = true)
    (hcb : a.has_budget_callback = false) :
    a.execute_task task track_usage kw =
      ⟨⟨"error", some "Budget limit exceeded", none, a.usage_tracker.to_json, some false⟩,
        a, 0⟩ := by
  simp [Agent.execute_task, Agent.check_budget, hval, hb, hcb]

/-- C8: with `cost_per_1k = 0.002` and a fresh tracker, one
`log_usage(100, 50)` call yields `total_tokens = 150`,
`estimated_cost = 0.0003`, and `is_budget_exceeded(0.50) = false`; after 2000
repetitions of the same call the cost is past 0.50 (the budget check reports
exceeded), and `execute_task` on such an agent with budget limit 0.50 halts
with the budget error before executing the task, leaving the agent
unchanged. -/
theorem C8_example_scenario :
    (UsageTracker.init.log_usage 100 50 (2/1000)).1.total_tokens = 150 ∧
    (UsageTracker.init.log_usage 100 50 (2/1000)).1.estimated_cost = 3/10000 ∧
    (UsageTracker.init.log_usage 100 50 (2/1000)).1.is_budget_exceeded (1/2) = false ∧
    (1/2 : Rat) ≤ (iterLog 2000).estimated_cost ∧
    (iterLog 2000).is_budget_exceeded (1/2) = true ∧
    a8.execute_task exampleTask true kwq =
      ⟨⟨"error", some "Budget limit exceeded", none, a8.usage_tracker.to_json, some false⟩,
        a8, 0⟩ := by
  have hcost : (iterLog 2000).estimated_cost = 6003/10 := by
    rw [iterLog_closed]
    norm_num
  have hexceeded : (iterLog 2000).is_budget_exceeded (1/2) = true := by
    simp [UsageTracker.is_budget_exceeded, hcost]
    norm_num
  have hb8 : a8.usage_tracker.is_budget_exceeded a8.config.budget_limit = true := by
    simp only [a8]
    exact hexceeded
  have hcb8 : a8.has_budget_callback = false := by
    simp only [a8]
  refine ⟨?_, ?_, ?_, ?_, hexceeded,
    execute_task_halts a8 exampleTask true kwq rfl hb8 hcb8⟩
  · norm_num [UsageTracker.log_usage, UsageTracker.init]
  · norm_num [UsageTracker.log_usage, UsageTracker.init]
  · norm_num [UsageTracker.is_budget_exceeded, UsageTracker.log_usage, UsageTracker.init]
  · rw [hcost]
    norm_num

end MainPy
